import Mathlib

/-!
Verification development for the Vocal Extractor service
(`src/my_project/main.py`, with the near-identical auth routes in
`src/my_project/log_reg.py`).

The embedding is a shallow one:

* The in-memory user store (a Python dict from username to a record dict)
  is a `List Account`; dict lookup is first-match search by username, and
  insertion of a fresh key is an append, which matches dict insertion order.
* The SHA-256 digest from `hashlib` is an external library primitive; it is
  threaded through the auth operations as a function parameter `sha`.
* HTTP outcomes are the `Resp` type: a JSON success body, a raised
  `HTTPException` with status and detail, an uncaught Python exception
  (which the framework surfaces as an internal server error), or a
  `FileResponse`.
* The media pipeline is modelled over an explicit environment `Env` whose
  fields stand for the external collaborators (ffmpeg subprocess outcomes,
  the waveform that `torchaudio.load` returns, the pretrained separation
  model, the upload-save outcome) and an explicit filesystem `FS` mapping
  paths to file data.  Audio files are tracked at the signal level: the
  numpy transpose performed before `sf.write` and the frame-major layout
  that `sf.write` consumes cancel, so a wav file is recorded by the
  channel-major waveform it contains.
-/

namespace VocalExtractor

/-- An entry of the in-memory `users` dict.  Accounts created by
`/register` carry `password_hash`; accounts created by `/google-login`
carry `google_id` instead and have no `password_hash` key, which the
embedding records as `none`. -/
structure Account where
  username : String
  email : Option String
  password_hash : Option String
  google_id : Option String
deriving Repr, DecidableEq

/-- Outcome of one HTTP endpoint call. -/
inductive Resp where
  | success (body : List (String × String))
  | httpExc (status : Nat) (detail : String)
  | uncaught (exc : String)
  | fileResponse (path : String) (filename : String)
deriving Repr, DecidableEq

/-- Dict lookup `users.get(name)`: first entry with the given username. -/
def getUser (users : List Account) (name : String) : Option Account :=
  users.find? (fun a => a.username == name)

/-- Key-membership test `name in users`. -/
def hasUser (users : List Account) (name : String) : Bool :=
  users.any (fun a => a.username == name)

/-- `hash_password` from main.py lines 59-61: the SHA-256 hex digest of the
password.  The digest itself is computed by the external `hashlib`
library, modelled by the parameter `sha`. -/
def hash_password (sha : String → String) (password : String) : String :=
  sha password

/-- `/register` (main.py lines 84-93): conflict if the username is taken,
otherwise store a new account holding the hash of the password. -/
def register (sha : String → String) (users : List Account)
    (username email password : String) : Resp × List Account :=
  if hasUser users username then
    (.httpExc 400 "Username already exists", users)
  else
    (.success [("message", "Registration successful")],
     users ++ [{ username := username, email := some email,
                 password_hash := some (hash_password sha password),
                 google_id := none }])

/-- `/login` (main.py lines 95-100).  When the account exists, the code
reads `user["password_hash"]` unconditionally; on a google-created
account that key is absent, so the read raises a KeyError that no
handler catches. -/
def login (sha : String → String) (users : List Account)
    (username password : String) : Resp :=
  match getUser users username with
  | none => .httpExc 401 "Invalid credentials"
  | some user =>
    match user.password_hash with
    | none => .uncaught "KeyError: password_hash"
    | some h =>
      if h == hash_password sha password then
        .success [("message", "Login successful")]
      else
        .httpExc 401 "Invalid credentials"

/-- `/forgot-password` (main.py lines 102-107): scan the stored accounts in
insertion order for a matching email. -/
def forgot_password (users : List Account) (email : String) : Resp :=
  match users.find? (fun u => u.email == some email) with
  | some _ => .success [("message", "Password reset link sent (simulated)")]
  | none => .success [("message", "If an account exists, a reset link has been sent.")]

/-- The JSON object returned by the remote tokeninfo endpoint, with the
fields the handler reads.  `data.get` on an absent key is `none`. -/
structure TokenData where
  error : Option String
  error_description : Option String
  email : Option String
  name : Option String
  sub : Option String
deriving Repr, DecidableEq

/-- Python `str` of an optional value, as interpolated into a detail
message: `None` when absent. -/
def pyStr : Option String → String
  | none => "None"
  | some s => s

/-- Python `name.replace(" ", "_")` (single-character pattern, so a map
over the characters). -/
def pyReplaceSpace (s : String) : String :=
  ⟨s.data.map (fun c => if c = ' ' then '_' else c)⟩

/-- Python `str.lower()`. -/
def pyLower (s : String) : String :=
  ⟨s.data.map Char.toLower⟩

/-- Python slice `s[:n]`. -/
def pySlice (s : String) (n : Nat) : String :=
  ⟨s.data.take n⟩

/-- `/google-login` (main.py lines 109-132).  The whole body sits in a
`try` whose handler catches every `Exception` and re-raises it as a 500.
`HTTPException` is itself an `Exception`, so the 401 raised for a token
the remote check rejects is caught there too and surfaces as a 500 whose
detail embeds `str` of the caught exception, which for an HTTPException
is the status followed by the detail.  A missing `name` or `sub` field
makes the username computation raise (attribute or subscript error on
None), likewise converted to a 500; the embedding paraphrases those
interpreter messages.  `verify` is the outcome of the external
`requests.get` call: a network-level exception or the decoded JSON. -/
def google_login (users : List Account) (verify : Except String TokenData) :
    Resp × List Account :=
  match verify with
  | .error netExc => (.httpExc 500 ("Google login failed: " ++ netExc), users)
  | .ok data =>
    if data.error.isSome then
      (.httpExc 500 ("Google login failed: 401: Invalid Google token: "
         ++ pyStr (data.error_description.orElse (fun _ => data.error))), users)
    else
      match data.name, data.sub with
      | none, _ =>
        (.httpExc 500 "Google login failed: NoneType object has no attribute replace", users)
      | some _, none =>
        (.httpExc 500 "Google login failed: NoneType object is not subscriptable", users)
      | some nm, some sub =>
        let username := pyLower (pyReplaceSpace nm) ++ "_" ++ pySlice sub 6
        if hasUser users username then
          (.success [("message", "Google login successful"), ("username", username)], users)
        else
          (.success [("message", "Google login successful"), ("username", username)],
           users ++ [{ username := username, email := data.email,
                       password_hash := none, google_id := some sub }])

/-! ## Media pipeline -/

/-- A multi-channel waveform in channel-major layout: a list of channels,
each a list of samples. -/
abbrev Waveform := List (List ℚ)

/-- Elementwise sum of two waveforms (torch tensor addition). -/
def addW (a b : Waveform) : Waveform :=
  List.zipWith (fun r s => List.zipWith (fun x y => x + y) r s) a b

/-- The waveform has `c` channels of `t` samples each. -/
def hasShape (w : Waveform) (c t : Nat) : Bool :=
  w.length == c && w.all (fun r => r.length == t)

/-- Content of a file on disk: the raw uploaded video blob, a wav file
(recorded by the channel-major waveform it contains), or a remuxed video
container carrying a stem as its audio stream. -/
inductive FileData where
  | blob
  | wavData (w : Waveform)
  | mp4Data (w : Waveform)
deriving Repr, DecidableEq

/-- The filesystem: a finite map from path to file data. -/
abbrev FS := List (String × FileData)

/-- Look up the file at a path. -/
def fsGet : FS → String → Option FileData
  | [], _ => none
  | e :: rest, p => if e.1 == p then some e.2 else fsGet rest p

/-- `os.path.isfile` / existence of a path. -/
def fsHas (fs : FS) (p : String) : Bool :=
  (fsGet fs p).isSome

/-- `os.remove` of an existing path (callers check existence; on an absent
path `os.remove` raises, which the cleanup model branches on). -/
def fsRemove : FS → String → FS
  | [], _ => []
  | e :: rest, p => if e.1 == p then fsRemove rest p else e :: fsRemove rest p

/-- Write (create or overwrite) the file at a path. -/
def fsSet (fs : FS) (p : String) (d : FileData) : FS :=
  (p, d) :: fsRemove fs p

/-- Outcome of `shutil.copyfileobj` persisting the upload: success, a
failure after `open` already created the (partial) file, or a failure of
`open` itself with no file created. -/
inductive SaveResult where
  | ok
  | failPartial
  | failEarly
deriving Repr, DecidableEq

/-- A Python exception escaping `process_video_sync`. -/
inductive PyError where
  | runtimeError (msg : String)
  | calledProcessError (stderr : String)
deriving Repr, DecidableEq

/-- `str` of a `PyError`, as interpolated into an error detail. -/
def pyErrStr : PyError → String
  | .runtimeError m => m
  | .calledProcessError st => "Command returned non-zero exit status: " ++ st

/-- The environment of one `/process` request: the outcomes and data
supplied by the external collaborators (ffmpeg subprocesses, the
`torchaudio` loader, the pretrained Demucs model) plus whether the model
loaded at startup and how saving the upload went.  `applyModel w i` is
source `i` of the tensor `apply_model(demucs_model, w.unsqueeze(0))[0]`;
`resample w sr` is the 44.1kHz resampling of `w` from rate `sr`. -/
structure Env where
  modelLoaded : Bool
  save : SaveResult
  saveErr : String
  extractOk : Bool
  extractStderr : String
  loadedWave : Waveform
  loadedSr : Nat
  resample : Waveform → Nat → Waveform
  applyModel : Waveform → Fin 4 → Waveform
  muxOk1 : Bool
  muxStderr1 : String
  muxOk2 : Bool
  muxStderr2 : String

/-- Path of the job-scoped extracted-audio temp file. -/
def tempAudioPath (video_id : String) : String :=
  "temp/" ++ video_id ++ "_temp.wav"

/-- Job-scoped output directory. -/
def outputDir (video_id : String) : String :=
  "separated_output/" ++ video_id

/-- Preprocessing of the loaded waveform (main.py lines 152-156): resample
when the rate is not 44100, then duplicate a mono channel to stereo. -/
def preprocess (env : Env) : Waveform :=
  let wave := env.loadedWave
  let wave1 := if env.loadedSr == 44100 then wave else env.resample wave env.loadedSr
  if wave1.length == 1 then wave1 ++ wave1 else wave1

/-- The dict returned by `process_video_sync`, together with the two stems
it wrote to the output directory (channel-major). -/
structure SyncOut where
  vocals : Waveform
  music : Waveform
  vocals_url : String
  music_url : String
deriving Repr, DecidableEq

/-- `process_video_sync` (main.py lines 135-188): check model
availability, extract audio with ffmpeg, load and preprocess it, run the
separation model, take source 3 as vocals and the sum of sources 0, 1, 2
as music, write both stems, and either return wav download URLs or remux
each stem against the original video into mp4 files first.  Subprocess
failures raise `CalledProcessError`. -/
def process_video_sync (env : Env) (fs : FS) (video_path video_id fmt : String) :
    Except PyError SyncOut × FS :=
  if !env.modelLoaded then
    (.error (.runtimeError "Demucs model is not loaded."), fs)
  else if !env.extractOk then
    (.error (.calledProcessError env.extractStderr), fs)
  else
    let fs1 := fsSet fs (tempAudioPath video_id) (.wavData env.loadedWave)
    let sources := env.applyModel (preprocess env)
    let vocals := sources 3
    let music := addW (addW (sources 0) (sources 1)) (sources 2)
    let vwav := outputDir video_id ++ "/vocals.wav"
    let mwav := outputDir video_id ++ "/music.wav"
    let fs2 := fsSet (fsSet fs1 vwav (.wavData vocals)) mwav (.wavData music)
    if fmt == "mp4" then
      if !env.muxOk1 then
        (.error (.calledProcessError env.muxStderr1), fs2)
      else
        let vmp4 := outputDir video_id ++ "/vocals.mp4"
        let fs3 := fsSet fs2 vmp4 (.mp4Data vocals)
        if !env.muxOk2 then
          (.error (.calledProcessError env.muxStderr2), fs3)
        else
          let mmp4 := outputDir video_id ++ "/music.mp4"
          let fs4 := fsSet fs3 mmp4 (.mp4Data music)
          (.ok { vocals := vocals, music := music,
                 vocals_url := "/download?file=" ++ vmp4,
                 music_url := "/download?file=" ++ mmp4 }, fs4)
    else
      (.ok { vocals := vocals, music := music,
             vocals_url := "/download?file=" ++ vwav,
             music_url := "/download?file=" ++ mwav }, fs2)

/-- The `finally` block of `/process` (main.py lines 215-221): one `try`
around two `os.remove` calls with a swallowing handler, so a failure of
the first remove (path absent) skips the second. -/
def cleanup (fs : FS) (video_path temp_audio : String) : FS :=
  if fsHas fs video_path then
    let fs1 := fsRemove fs video_path
    if fsHas fs1 temp_audio then fsRemove fs1 temp_audio else fs1
  else fs

/-- Startup model loading (main.py lines 69-76): the `get_model` call sits
in a `try` whose handler swallows the exception and leaves the global set
to `None`, so a load failure never escapes. -/
def demucs_model (load : Except String Unit) : Option Unit :=
  match load with
  | .ok m => some m
  | .error _ => none

/-- The `/process` endpoint (main.py lines 190-221): reject with 503 when
the model is absent, persist the upload, run `process_video_sync` (the
executor dispatch is modelled as a direct call), translate its outcome to
a response, and clean up the two job-scoped temp files in a `finally`.
A failure while persisting the upload raises its 500 before the
`try`/`finally` is entered, so no cleanup runs on that path. -/
def process_video (env : Env) (fs : FS) (filename video_id fmt : String) :
    Resp × FS :=
  if !env.modelLoaded then
    (.httpExc 503 "Service unavailable: Demucs model failed to load at startup.", fs)
  else
    let video_path := "temp/" ++ video_id ++ "_" ++ filename
    match env.save with
    | .failEarly => (.httpExc 500 ("Could not save uploaded file: " ++ env.saveErr), fs)
    | .failPartial =>
      (.httpExc 500 ("Could not save uploaded file: " ++ env.saveErr), fsSet fs video_path .blob)
    | .ok =>
      let r := process_video_sync env (fsSet fs video_path .blob) video_path video_id fmt
      let resp : Resp :=
        match r.1 with
        | .ok o => .success [("vocals_url", o.vocals_url), ("music_url", o.music_url)]
        | .error (.calledProcessError st) => .httpExc 500 ("FFmpeg failed: " ++ st)
        | .error e => .httpExc 500 ("An error occurred during audio processing: " ++ pyErrStr e)
      (resp, cleanup r.2 video_path (tempAudioPath video_id))

/-- Split a character list on a separator character. -/
def splitOnChar : List Char → Char → List (List Char)
  | [], _ => [[]]
  | c :: rest, sep =>
    if c = sep then [] :: splitOnChar rest sep
    else
      match splitOnChar rest sep with
      | [] => [[c]]
      | h :: t => (c :: h) :: t

/-- `os.path.basename` on a forward-slash path: the segment after the
last separator. -/
def basename (p : String) : String :=
  ⟨(splitOnChar p.data '/').getLastD p.data⟩

/-- Python `file.startswith(t)`, by character list. -/
def strStartsWith (s t : String) : Bool :=
  t.data.isPrefixOf s.data

/-- The `/download` endpoint (main.py lines 223-231): 404 unless the path
argument starts with the output-directory prefix string, 404 when no such
file exists, otherwise serve the file. -/
def download (fs : FS) (file : String) : Resp :=
  if !(strStartsWith file "separated_output/") then
    .httpExc 404 "Invalid file path"
  else if !(fsHas fs file) then
    .httpExc 404 "File not found"
  else
    .fileResponse file (basename file)

/-- Suffix test on strings, by character list. -/
def strEndsWith (s t : String) : Bool :=
  s.data.reverse.take t.data.length == t.data.reverse

/-! ## Helper lemmas -/

theorem find?_isSome_eq_any {α : Type} (l : List α) (p : α → Bool) :
    (l.find? p).isSome = l.any p := by
  induction l with
  | nil => rfl
  | cons a as ih => by_cases h : p a <;> simp [List.find?, h, ih]

theorem getUser_append_of_not_found (users : List Account) (a : Account) (u : String)
    (h : hasUser users u = false) (ha : a.username = u) :
    getUser (users ++ [a]) u = some a := by
  induction users with
  | nil => simp [getUser, List.find?, ha]
  | cons b bs ih =>
    simp only [hasUser, List.any_cons, Bool.or_eq_false_iff] at h
    have ihh := ih h.2
    simp only [getUser, List.cons_append, List.find?, h.1] at *
    exact ihh

theorem hasUser_append_self (users : List Account) (a : Account) (u : String)
    (ha : a.username = u) :
    hasUser (users ++ [a]) u = true := by
  simp [hasUser, List.any_append, ha]

/-! ## Auth theorems -/

/-- C3 counterexample input: the store produced by one successful
google-login, holding an account with no password hash. -/
def gTok : TokenData :=
  { error := none, error_description := none, email := some "bob@example.com",
    name := some "bob", sub := some "10203040" }

/-- The account store after one google login. -/
def gStore : List Account := (google_login [] (Except.ok gTok)).2

/-- C3 (amended): login succeeds iff the account exists and its stored
password hash equals the hash of the supplied password; an unknown
username or a wrong password yields the generic 401; but an account with
no password hash (google-created) makes the handler raise an uncaught
KeyError instead of returning the generic message. -/
theorem login_spec (sha : String → String) (users : List Account) (u p : String) :
    (login sha users u p = .success [("message", "Login successful")]
       ↔ ∃ a, getUser users u = some a ∧ a.password_hash = some (sha p))
    ∧ (getUser users u = none → login sha users u p = .httpExc 401 "Invalid credentials")
    ∧ (∀ a h, getUser users u = some a → a.password_hash = some h → h ≠ sha p →
        login sha users u p = .httpExc 401 "Invalid credentials")
    ∧ (∀ a, getUser users u = some a → a.password_hash = none →
        login sha users u p = .uncaught "KeyError: password_hash") := by
  refine ⟨?_, ?_, ?_, ?_⟩
  · constructor
    · intro hs
      unfold login at hs
      split at hs
      · exact absurd hs (by simp)
      next a hgu =>
        split at hs
        next hph => exact absurd hs (by simp)
        next h hph =>
          split at hs
          next heq => exact ⟨a, hgu, by rw [hph]; exact congrArg some (eq_of_beq heq)⟩
          next => exact absurd hs (by simp)
    · rintro ⟨a, hgu, hph⟩
      simp [login, hgu, hph, hash_password]
  · intro hgu; simp [login, hgu]
  · intro a h hgu hph hne
    simp [login, hgu, hph, hash_password, hne]
  · intro a hgu hph
    simp [login, hgu, hph]

/-- A sample locally-registered account used by witnesses. -/
def accAlice : Account :=
  { username := "alice", email := some "alice@example.com",
    password_hash := some "hunter2", google_id := none }

/-- Witness for `login_spec`: a concrete successful login. -/
theorem login_spec_witness :
    login (fun s => s) [accAlice] "alice" "hunter2"
      = .success [("message", "Login successful")] :=
  ((login_spec (fun s => s) [accAlice] "alice" "hunter2").1).mpr
    ⟨accAlice, by decide, by decide⟩

/-- C3 counterexample: logging in against a google-created account (which
exists but has no stored password hash) raises an uncaught KeyError, not
the generic unauthorized message the claim requires. -/
theorem login_google_account_cex :
    gStore = [{ username := "bob_102030", email := some "bob@example.com",
                password_hash := none, google_id := some "10203040" }]
    ∧ login (fun s => s) gStore "bob_102030" "secret" = .uncaught "KeyError: password_hash"
    ∧ login (fun s => s) gStore "bob_102030" "secret" ≠ .httpExc 401 "Invalid credentials" := by
  refine ⟨by decide, by decide, by decide⟩

/-- C4: when the remote token verification reports an error, the handler
raises the 401 inside a try block whose handler catches every Exception
and re-raises it as a 500, so the caller sees a generic server error, not
the distinguishable 401 the claim requires. -/
theorem google_login_error_is_500 :
    google_login [] (Except.ok { error := some "invalid_token",
                                 error_description := some "Invalid Value",
                                 email := none, name := none, sub := none })
      = (.httpExc 500 "Google login failed: 401: Invalid Google token: Invalid Value", [])
    ∧ ∀ users data, (data : TokenData).error.isSome →
        ∃ d, (google_login users (Except.ok data)).1 = .httpExc 500 d := by
  refine ⟨by decide, ?_⟩
  intro users data herr
  exact ⟨"Google login failed: 401: Invalid Google token: "
           ++ pyStr (data.error_description.orElse (fun _ => data.error)),
         by simp [google_login, herr]⟩

/-- C8: registration conflicts exactly when the username is already
present; otherwise the new account stores the hash of the password, and
an immediate second registration of the same username conflicts. -/
theorem register_spec (sha : String → String) (users : List Account)
    (u e p e2 p2 : String) :
    ((register sha users u e p).1 = .httpExc 400 "Username already exists"
       ↔ hasUser users u = true)
    ∧ (hasUser users u = false →
        (register sha users u e p).1 = .success [("message", "Registration successful")]
        ∧ (register sha users u e p).2
            = users ++ [{ username := u, email := some e,
                          password_hash := some (sha p), google_id := none }]
        ∧ (register sha (register sha users u e p).2 u e2 p2).1
            = .httpExc 400 "Username already exists") := by
  constructor
  · by_cases h : hasUser users u <;> simp [register, h, hash_password]
  · intro h
    refine ⟨by simp [register, h], by simp [register, h, hash_password], ?_⟩
    have h2 : (register sha users u e p).2
        = users ++ [{ username := u, email := some e,
                      password_hash := some (sha p), google_id := none }] := by
      simp [register, h, hash_password]
    rw [h2, register, if_pos (hasUser_append_self users _ u rfl)]

/-- Witness for `register_spec`: a fresh registration stores the hashed
password and the second attempt conflicts. -/
theorem register_spec_witness :
    (register (fun s => s) [] "alice" "a@example.com" "pw").1
        = .success [("message", "Registration successful")]
    ∧ (register (fun s => s) [] "alice" "a@example.com" "pw").2
        = [{ username := "alice", email := some "a@example.com",
             password_hash := some "pw", google_id := none }]
    ∧ (register (fun s => s) (register (fun s => s) [] "alice" "a@example.com" "pw").2
          "alice" "b@example.com" "pw2").1 = .httpExc 400 "Username already exists" :=
  (register_spec (fun s => s) [] "alice" "a@example.com" "pw" "b@example.com" "pw2").2
    (by decide)

/-- C9: a forgot-password request matching a stored email returns the
found message, a non-matching one returns the generic message, and the
two messages differ. -/
theorem forgot_password_distinct (users1 users2 : List Account) (e1 e2 : String)
    (h1 : users1.any (fun u => u.email == some e1) = true)
    (h2 : users2.any (fun u => u.email == some e2) = false) :
    forgot_password users1 e1
        = .success [("message", "Password reset link sent (simulated)")]
    ∧ forgot_password users2 e2
        = .success [("message", "If an account exists, a reset link has been sent.")]
    ∧ forgot_password users1 e1 ≠ forgot_password users2 e2 := by
  have hf1 : (users1.find? (fun u => u.email == some e1)).isSome = true := by
    rw [find?_isSome_eq_any]; exact h1
  have hf2 : (users2.find? (fun u => u.email == some e2)) = none := by
    rw [← Option.not_isSome_iff_eq_none, find?_isSome_eq_any, h2]; simp
  obtain ⟨a, ha⟩ := Option.isSome_iff_exists.mp hf1
  refine ⟨by simp [forgot_password, ha], by simp [forgot_password, hf2], ?_⟩
  simp [forgot_password, ha, hf2]

/-- Witness for `forgot_password_distinct` at a concrete store. -/
theorem forgot_password_distinct_witness :
    forgot_password [{ username := "alice", email := some "a@example.com",
                       password_hash := some "pw", google_id := none }] "a@example.com"
        = .success [("message", "Password reset link sent (simulated)")]
    ∧ forgot_password [] "a@example.com"
        = .success [("message", "If an account exists, a reset link has been sent.")]
    ∧ forgot_password [{ username := "alice", email := some "a@example.com",
                         password_hash := some "pw", google_id := none }] "a@example.com"
        ≠ forgot_password [] "a@example.com" :=
  forgot_password_distinct _ [] "a@example.com" "a@example.com" (by decide) (by decide)

/-- C10: registering a fresh username and then logging in with the same
username and password succeeds, because the stored hash is recomputed
identically at login. -/
theorem register_login_roundtrip (sha : String → String) (users : List Account)
    (u e p : String) (h : hasUser users u = false) :
    (register sha users u e p).1 = .success [("message", "Registration successful")]
    ∧ login sha (register sha users u e p).2 u p
        = .success [("message", "Login successful")] := by
  refine ⟨by simp [register, h], ?_⟩
  have h2 : (register sha users u e p).2
      = users ++ [{ username := u, email := some e,
                    password_hash := some (sha p), google_id := none }] := by
    simp [register, h, hash_password]
  rw [h2, login, getUser_append_of_not_found users _ u h rfl]
  simp [hash_password]

/-- Witness for `register_login_roundtrip` at a concrete fresh store. -/
theorem register_login_roundtrip_witness :
    (register (fun s => s ++ "!") [] "carol" "c@example.com" "pw").1
        = .success [("message", "Registration successful")]
    ∧ login (fun s => s ++ "!") (register (fun s => s ++ "!") [] "carol" "c@example.com" "pw").2
        "carol" "pw" = .success [("message", "Login successful")] :=
  register_login_roundtrip (fun s => s ++ "!") [] "carol" "c@example.com" "pw" (by decide)

/-! ## Waveform shape lemmas -/

theorem hasShape_eq_true_iff (w : Waveform) (c t : Nat) :
    hasShape w c t = true ↔ w.length = c ∧ ∀ r ∈ w, r.length = t := by
  simp [hasShape]

theorem hasShape_addW {a b : Waveform} {c t : Nat}
    (ha : hasShape a c t = true) (hb : hasShape b c t = true) :
    hasShape (addW a b) c t = true := by
  rw [hasShape_eq_true_iff] at ha hb ⊢
  refine ⟨by simp [addW, List.length_zipWith, ha.1, hb.1], ?_⟩
  intro r hr
  obtain ⟨i, hi, rfl⟩ := List.mem_iff_getElem.mp hr
  have hia : i < a.length := by
    simp only [addW, List.length_zipWith, lt_min_iff] at hi; exact hi.1
  have hib : i < b.length := by
    simp only [addW, List.length_zipWith, lt_min_iff] at hi; exact hi.2
  unfold addW
  rw [List.getElem_zipWith, List.length_zipWith,
      ha.2 _ (List.getElem_mem hia), hb.2 _ (List.getElem_mem hib)]
  exact Nat.min_self t

theorem addW_getD {a b : Waveform} {c t : Nat}
    (ha : hasShape a c t = true) (hb : hasShape b c t = true)
    {ch s : Nat} (hch : ch < c) (hs : s < t) :
    ((addW a b).getD ch []).getD s 0
      = (a.getD ch []).getD s 0 + (b.getD ch []).getD s 0 := by
  rw [hasShape_eq_true_iff] at ha hb
  have hca : ch < a.length := by omega
  have hcb : ch < b.length := by omega
  have hcz : ch < (addW a b).length := by
    simp only [addW, List.length_zipWith, lt_min_iff]; exact ⟨hca, hcb⟩
  rw [List.getD_eq_getElem _ _ hcz, List.getD_eq_getElem _ _ hca,
      List.getD_eq_getElem _ _ hcb]
  unfold addW
  rw [List.getElem_zipWith]
  have hta : a[ch].length = t := ha.2 _ (List.getElem_mem hca)
  have htb : b[ch].length = t := hb.2 _ (List.getElem_mem hcb)
  have hsa : s < a[ch].length := by omega
  have hsb : s < b[ch].length := by omega
  have hsz : s < (List.zipWith (fun x y => x + y) a[ch] b[ch]).length := by
    rw [List.length_zipWith]; omega
  rw [List.getD_eq_getElem _ _ hsz, List.getD_eq_getElem _ _ hsa,
      List.getD_eq_getElem _ _ hsb, List.getElem_zipWith]

/-! ## Filesystem lemmas -/

theorem fsGet_fsRemove_ne (fs : FS) (p q : String) (hne : (p == q) = false) :
    fsGet (fsRemove fs p) q = fsGet fs q := by
  induction fs with
  | nil => rfl
  | cons a as ih =>
    by_cases h1 : (a.1 == p) = true
    · have h2 : (a.1 == q) = false := by rw [eq_of_beq h1]; exact hne
      simp [fsRemove, fsGet, h1, h2, ih]
    · by_cases h2 : (a.1 == q) = true <;> simp [fsRemove, fsGet, h1, h2, ih]

theorem fsHas_fsSet_self (fs : FS) (p : String) (d : FileData) :
    fsHas (fsSet fs p d) p = true := by
  simp [fsHas, fsGet, fsSet]

theorem fsHas_fsSet_of (fs : FS) (p q : String) (d : FileData)
    (h : fsHas fs q = true) :
    fsHas (fsSet fs p d) q = true := by
  by_cases hpq : (p == q) = true
  · simp [fsHas, fsGet, fsSet, hpq]
  · have hpq' : (p == q) = false := by simpa using hpq
    unfold fsHas at h ⊢
    simp only [fsSet, fsGet, hpq', if_false, Bool.false_eq_true]
    rw [fsGet_fsRemove_ne fs p q hpq']
    exact h

theorem fsGet_fsRemove_self (fs : FS) (p : String) :
    fsGet (fsRemove fs p) p = none := by
  induction fs with
  | nil => rfl
  | cons a as ih =>
    by_cases h : (a.1 == p) = true
    · simpa [fsRemove, h] using ih
    · simpa [fsRemove, fsGet, h] using ih

theorem fsGet_fsRemove_none (fs : FS) (p q : String) (h : fsGet fs q = none) :
    fsGet (fsRemove fs p) q = none := by
  induction fs with
  | nil => rfl
  | cons a as ih =>
    by_cases h2 : (a.1 == q) = true
    · simp [fsGet, h2] at h
    · have h' : fsGet as q = none := by simpa [fsGet, h2] using h
      by_cases h1 : (a.1 == p) = true <;> simp [fsRemove, fsGet, h1, h2, ih h']

theorem fsHas_fsRemove_of_false (fs : FS) (p q : String) (h : fsHas fs q = false) :
    fsHas (fsRemove fs p) q = false := by
  have hn : fsGet fs q = none := by
    cases hg : fsGet fs q with
    | none => rfl
    | some d => rw [fsHas, hg] at h; simp at h
  simp [fsHas, fsGet_fsRemove_none fs p q hn]

theorem cleanup_clears (fs : FS) (vp ta : String) (hvp : fsHas fs vp = true) :
    fsHas (cleanup fs vp ta) vp = false ∧ fsHas (cleanup fs vp ta) ta = false := by
  unfold cleanup
  rw [if_pos hvp]
  have hvp2 : fsHas (fsRemove fs vp) vp = false := by
    simp [fsHas, fsGet_fsRemove_self]
  by_cases hta : fsHas (fsRemove fs vp) ta = true
  · rw [if_pos hta]
    exact ⟨fsHas_fsRemove_of_false _ _ _ hvp2, by simp [fsHas, fsGet_fsRemove_self]⟩
  · rw [if_neg hta]
    exact ⟨hvp2, by simpa using hta⟩

theorem fsHas_process_video_sync (env : Env) (fs : FS) (vp vid fmt q : String)
    (h : fsHas fs q = true) :
    fsHas (process_video_sync env fs vp vid fmt).2 q = true := by
  unfold process_video_sync
  split
  · simpa using h
  · split
    · simpa using h
    · simp only
      split
      · split
        · exact fsHas_fsSet_of _ _ _ _ (fsHas_fsSet_of _ _ _ _ (fsHas_fsSet_of _ _ _ _ h))
        · split
          · exact fsHas_fsSet_of _ _ _ _ (fsHas_fsSet_of _ _ _ _
              (fsHas_fsSet_of _ _ _ _ (fsHas_fsSet_of _ _ _ _ h)))
          · exact fsHas_fsSet_of _ _ _ _ (fsHas_fsSet_of _ _ _ _
              (fsHas_fsSet_of _ _ _ _ (fsHas_fsSet_of _ _ _ _ (fsHas_fsSet_of _ _ _ _ h))))
      · exact fsHas_fsSet_of _ _ _ _ (fsHas_fsSet_of _ _ _ _ (fsHas_fsSet_of _ _ _ _ h))

/-! ## Suffix lemmas -/

theorem string_data_append (a b : String) : (a ++ b).data = a.data ++ b.data := by
  cases a; cases b; rfl

theorem strEndsWith_append (a b t : String) (h : strEndsWith b t = true) :
    strEndsWith (a ++ b) t = true := by
  unfold strEndsWith at h ⊢
  have heq : b.data.reverse.take t.data.length = t.data.reverse := eq_of_beq h
  have hle : t.data.length ≤ b.data.length := by
    have hlen := congrArg List.length heq
    simp only [List.length_take, List.length_reverse] at hlen
    omega
  rw [string_data_append, List.reverse_append,
      List.take_append_of_le_length (by simpa using hle)]
  exact h

/-! ## Media theorems -/

/-- A sample environment in which every external collaborator succeeds and
the separation model is the identity on each source. -/
def sampleEnv : Env :=
  { modelLoaded := true, save := .ok, saveErr := "",
    extractOk := true, extractStderr := "",
    loadedWave := [[1, 2], [3, 4]], loadedSr := 44100,
    resample := fun w _ => w,
    applyModel := fun w _ => w,
    muxOk1 := true, muxStderr1 := "", muxOk2 := true, muxStderr2 := "" }

/-- C1: when the separation model honors its contract of producing four
sources with the shape of its input, a successful run of the pipeline
returns vocals equal to source 3 unmodified, music whose every sample is
the elementwise sum of the corresponding samples of sources 0, 1 and 2,
and all four sources and both stems have the channel and sample counts of
the separation input waveform. -/
theorem separation_stems (env : Env) (fs : FS) (vp vid fmt : String) (c t : Nat)
    (hml : env.modelLoaded = true) (hex : env.extractOk = true)
    (hfmt : (fmt == "mp4") = false)
    (hin : hasShape (preprocess env) c t = true)
    (hmodel : ∀ (w : Waveform) (i : Fin 4) (c t : Nat),
        hasShape w c t = true → hasShape (env.applyModel w i) c t = true) :
    ∃ o fs2, process_video_sync env fs vp vid fmt = (Except.ok o, fs2)
      ∧ o.vocals = env.applyModel (preprocess env) 3
      ∧ (∀ ch s : Nat, ch < c → s < t →
          (o.music.getD ch []).getD s 0
            = ((env.applyModel (preprocess env) 0).getD ch []).getD s 0
              + ((env.applyModel (preprocess env) 1).getD ch []).getD s 0
              + ((env.applyModel (preprocess env) 2).getD ch []).getD s 0)
      ∧ (∀ i : Fin 4, hasShape (env.applyModel (preprocess env) i) c t = true)
      ∧ hasShape o.vocals c t = true
      ∧ hasShape o.music c t = true := by
  have hsrc : ∀ i : Fin 4, hasShape (env.applyModel (preprocess env) i) c t = true :=
    fun i => hmodel _ i c t hin
  unfold process_video_sync
  rw [hml, hex]
  simp only [Bool.not_true, Bool.false_eq_true, if_false, hfmt]
  refine ⟨_, _, rfl, rfl, ?_, hsrc, hsrc 3, ?_⟩
  · intro ch s hch hs
    rw [addW_getD (hasShape_addW (hsrc 0) (hsrc 1)) (hsrc 2) hch hs,
        addW_getD (hsrc 0) (hsrc 1) hch hs]
  · exact hasShape_addW (hasShape_addW (hsrc 0) (hsrc 1)) (hsrc 2)

/-- Witness for `separation_stems` on a concrete stereo waveform with the
identity model. -/
theorem separation_stems_witness :
    hasShape (preprocess sampleEnv) 2 2 = true
    ∧ ∃ o fs2, process_video_sync sampleEnv [] "temp/j0_v.mp4" "j0" "wav"
          = (Except.ok o, fs2)
      ∧ o.vocals = sampleEnv.applyModel (preprocess sampleEnv) 3
      ∧ (∀ ch s : Nat, ch < 2 → s < 2 →
          (o.music.getD ch []).getD s 0
            = ((sampleEnv.applyModel (preprocess sampleEnv) 0).getD ch []).getD s 0
              + ((sampleEnv.applyModel (preprocess sampleEnv) 1).getD ch []).getD s 0
              + ((sampleEnv.applyModel (preprocess sampleEnv) 2).getD ch []).getD s 0)
      ∧ (∀ i : Fin 4, hasShape (sampleEnv.applyModel (preprocess sampleEnv) i) 2 2 = true)
      ∧ hasShape o.vocals 2 2 = true
      ∧ hasShape o.music 2 2 = true :=
  ⟨by decide,
   separation_stems sampleEnv [] "temp/j0_v.mp4" "j0" "wav" 2 2 rfl rfl (by decide)
     (by decide) (fun w i c t h => h)⟩

/-- C2 counterexample: with the format selector "ogg" (not "wav"), a
successful run returns two locators ending in ".wav", not in the video
extension ".mp4" as the claim requires for every non-"wav" selector. -/
theorem process_nonwav_format_cex :
    ((process_video_sync sampleEnv [] "temp/j3_v.mp4" "j3" "ogg").1.toOption.map
        (fun o => (o.vocals_url, o.music_url))
      = some ("/download?file=separated_output/j3/vocals.wav",
              "/download?file=separated_output/j3/music.wav"))
    ∧ strEndsWith "/download?file=separated_output/j3/vocals.wav" ".mp4" = false
    ∧ strEndsWith "/download?file=separated_output/j3/music.wav" ".mp4" = false
    ∧ strEndsWith "/download?file=separated_output/j3/vocals.wav" ".wav" = true
    ∧ strEndsWith "/download?file=separated_output/j3/music.wav" ".wav" = true := by
  refine ⟨by decide, by decide, by decide, by decide, by decide⟩

/-- C2 (amended): a successful run returns locators ending in ".mp4" when
the format selector is exactly "mp4", and locators ending in ".wav" for
every other selector, "wav" or not. -/
theorem format_urls (env : Env) (fs : FS) (vp vid fmt : String)
    (hml : env.modelLoaded = true) (hex : env.extractOk = true)
    (hm1 : fmt = "mp4" → env.muxOk1 = true) (hm2 : fmt = "mp4" → env.muxOk2 = true) :
    ∃ o fs2, process_video_sync env fs vp vid fmt = (Except.ok o, fs2)
      ∧ (fmt = "mp4" →
          strEndsWith o.vocals_url ".mp4" = true ∧ strEndsWith o.music_url ".mp4" = true)
      ∧ (fmt ≠ "mp4" →
          strEndsWith o.vocals_url ".wav" = true ∧ strEndsWith o.music_url ".wav" = true) := by
  by_cases hfm : fmt = "mp4"
  · unfold process_video_sync
    rw [hml, hex, hfm, hm1 hfm, hm2 hfm]
    simp only [Bool.not_true, Bool.false_eq_true, if_false, beq_self_eq_true, if_true]
    refine ⟨_, _, rfl, fun _ => ⟨?_, ?_⟩, fun hne => absurd rfl hne⟩
    · exact strEndsWith_append _ _ _ (strEndsWith_append _ "/vocals.mp4" _ (by decide))
    · exact strEndsWith_append _ _ _ (strEndsWith_append _ "/music.mp4" _ (by decide))
  · have hbeq : (fmt == "mp4") = false := by
      simpa using hfm
    unfold process_video_sync
    rw [hml, hex, hbeq]
    simp only [Bool.not_true, Bool.false_eq_true, if_false]
    refine ⟨_, _, rfl, fun heq => absurd heq hfm, fun _ => ⟨?_, ?_⟩⟩
    · exact strEndsWith_append _ _ _ (strEndsWith_append _ "/vocals.wav" _ (by decide))
    · exact strEndsWith_append _ _ _ (strEndsWith_append _ "/music.wav" _ (by decide))

/-- Witness for `format_urls`: the "mp4" selector yields ".mp4" locators
on a concrete run. -/
theorem format_urls_witness :
    ∃ o fs2, process_video_sync sampleEnv [] "temp/j4_v.mp4" "j4" "mp4"
        = (Except.ok o, fs2)
      ∧ ("mp4" = "mp4" →
          strEndsWith o.vocals_url ".mp4" = true ∧ strEndsWith o.music_url ".mp4" = true)
      ∧ ("mp4" ≠ "mp4" →
          strEndsWith o.vocals_url ".wav" = true ∧ strEndsWith o.music_url ".wav" = true) :=
  format_urls sampleEnv [] "temp/j4_v.mp4" "j4" "mp4" rfl rfl (fun _ => rfl) (fun _ => rfl)

/-- C5: a startup load failure is swallowed (the model global is simply
`None`, the process keeps running), and every subsequent `/process` call
is rejected with the distinguishable 503 before any media work: the
filesystem is returned untouched. -/
theorem model_load_failure_503 (e : String) (env : Env) (fs : FS)
    (filename vid fmt : String)
    (h : env.modelLoaded = (demucs_model (Except.error e)).isSome) :
    demucs_model (Except.error e) = none
    ∧ env.modelLoaded = false
    ∧ process_video env fs filename vid fmt
        = (.httpExc 503 "Service unavailable: Demucs model failed to load at startup.", fs) := by
  have hml : env.modelLoaded = false := by simpa [demucs_model] using h
  refine ⟨rfl, hml, ?_⟩
  unfold process_video
  rw [hml]
  simp

/-- The sample environment with the model failed at startup. -/
def failedEnv : Env := { sampleEnv with modelLoaded := false }

/-- Witness for `model_load_failure_503` at a concrete request. -/
theorem model_load_failure_503_witness :
    demucs_model (Except.error "load crashed") = none
    ∧ failedEnv.modelLoaded = false
    ∧ process_video failedEnv [] "v.mp4" "j2" "wav"
        = (.httpExc 503 "Service unavailable: Demucs model failed to load at startup.", []) :=
  model_load_failure_503 "load crashed" failedEnv [] "v.mp4" "j2" "wav" rfl

/-- C6: `/download` answers 404 whenever the path argument does not start
with the output-directory prefix string; a file is served exactly when
the path both starts with that prefix string and names an existing file,
and then the served path is the argument itself. -/
theorem download_restricted (fs : FS) (file : String) :
    (strStartsWith file "separated_output/" = false →
        download fs file = .httpExc 404 "Invalid file path")
    ∧ (∀ p fn, download fs file = .fileResponse p fn →
        strStartsWith file "separated_output/" = true ∧ fsHas fs file = true
        ∧ p = file ∧ fn = basename file)
    ∧ (strStartsWith file "separated_output/" = true → fsHas fs file = true →
        download fs file = .fileResponse file (basename file)) := by
  refine ⟨?_, ?_, ?_⟩
  · intro h; simp [download, h]
  · intro p fn h
    by_cases h1 : strStartsWith file "separated_output/" = true
    · by_cases h2 : fsHas fs file = true
      · simp [download, h1, h2] at h
        exact ⟨h1, h2, h.1.symm, h.2.symm⟩
      · simp [download, h1, Bool.eq_false_iff.mpr h2] at h
    · simp [download, Bool.eq_false_iff.mpr h1] at h
  · intro h1 h2; simp [download, h1, h2]

/-- Witness for `download_restricted`: a traversal-shaped argument is
rejected and an existing output file is served. -/
theorem download_restricted_witness :
    download [] "temp/../secret.txt" = .httpExc 404 "Invalid file path"
    ∧ download [("separated_output/j5/vocals.wav", .wavData [])]
          "separated_output/j5/vocals.wav"
        = .fileResponse "separated_output/j5/vocals.wav" "vocals.wav" := by
  constructor
  · exact (download_restricted [] "temp/../secret.txt").1 (by decide)
  · have := (download_restricted [("separated_output/j5/vocals.wav", .wavData [])]
      "separated_output/j5/vocals.wav").2.2 (by decide) (by decide)
    rw [this]
    have hb : basename "separated_output/j5/vocals.wav" = "vocals.wav" := by decide
    rw [hb]

/-- The sample environment in which persisting the upload fails midway,
leaving a partially written file. -/
def saveFailEnv : Env :=
  { sampleEnv with save := .failPartial, saveErr := "No space left on device" }

/-- C7 counterexample: when persisting the upload fails after the file was
created (a partial write), the 500 is raised before the try/finally, so
the job-scoped uploaded-video file still exists when the response is
returned. -/
theorem process_save_failure_cex :
    (process_video saveFailEnv [] "v.mp4" "j1" "wav").1
      = .httpExc 500 "Could not save uploaded file: No space left on device"
    ∧ fsHas (process_video saveFailEnv [] "v.mp4" "j1" "wav").2 "temp/j1_v.mp4" = true := by
  refine ⟨by decide, by decide⟩

/-- C7 (amended): whenever the upload was persisted successfully, the
`finally` block deletes both the job-scoped uploaded video and the
job-scoped extracted-audio temp file before the response is returned,
whatever the processing outcome was, and a deletion failure (absent
path) is swallowed rather than surfaced. -/
theorem process_cleanup (env : Env) (fs : FS) (filename vid fmt : String)
    (hml : env.modelLoaded = true) (hsave : env.save = .ok) :
    fsHas (process_video env fs filename vid fmt).2
        ("temp/" ++ vid ++ "_" ++ filename) = false
    ∧ fsHas (process_video env fs filename vid fmt).2 (tempAudioPath vid) = false := by
  unfold process_video
  rw [hml, hsave]
  simp only [Bool.not_true, Bool.false_eq_true, if_false]
  exact cleanup_clears _ _ _
    (fsHas_process_video_sync env _ _ vid fmt _ (fsHas_fsSet_self fs _ .blob))

/-- Witness for `process_cleanup` on a concrete successful run. -/
theorem process_cleanup_witness :
    fsHas (process_video sampleEnv [] "v.mp4" "j6" "wav").2
        ("temp/" ++ "j6" ++ "_" ++ "v.mp4") = false
    ∧ fsHas (process_video sampleEnv [] "v.mp4" "j6" "wav").2 (tempAudioPath "j6") = false :=
  process_cleanup sampleEnv [] "v.mp4" "j6" "wav" rfl rfl

end VocalExtractor
